import Mathlib

set_option maxHeartbeats 2000000
set_option maxRecDepth 8000

/-!
Verification of the error-handling core of RustaCUDA (`src/error.rs`).

The Rust source is shallowly embedded:

* The Rust enum `CudaError` (`#[repr(u32)]`) becomes the inductive `CudaError`,
  with `CudaError.code` giving each variant's `u32` discriminant.
* Driver status codes (`cuda_sys::cudaError_enum`, aliased `cudaError_t`) are
  values returned across the C FFI boundary; they are embedded as `Nat`.
  Each arm of the Rust `match` in `ToResult::to_result` tests one named
  driver constant; the constant's documented numeric value is written inline
  with a comment naming the constant, exactly mirroring the source order.
* `Result<T, E>` becomes `Except E T`; the `CudaResult` and `DropResult`
  type aliases are `abbrev`s.
* `impl fmt::Display for CudaError` becomes `fmtCudaError`, parameterised by
  the foreign function `cuGetErrorString`, modelled as a function from a
  status code to the pair (returned status, string written through the out
  pointer). `write!(f, "{:?}", cstr)` debug-formats the `CStr`, which
  surrounds the bytes with double quotes; `cstrDebug` models this (escaping
  of special characters inside the quotes is not modelled, no claim depends
  on it).
-/

/-- Error enum which represents all the potential errors returned by the CUDA
driver API (`CudaError` in src/error.rs). The final two variants are the
binding's own: `InvalidMemoryAllocation` and the hidden `__Nonexhaustive`
marker. -/
inductive CudaError where
  -- CUDA errors
  | InvalidValue
  | OutOfMemory
  | NotInitialized
  | Deinitialized
  | ProfilerDisabled
  | ProfilerNotInitialized
  | ProfilerAlreadyStarted
  | ProfilerAlreadyStopped
  | NoDevice
  | InvalidDevice
  | InvalidImage
  | InvalidContext
  | ContextAlreadyCurrent
  | MapFailed
  | UnmapFailed
  | ArrayIsMapped
  | AlreadyMapped
  | NoBinaryForGpu
  | AlreadyAcquired
  | NotMapped
  | NotMappedAsArray
  | NotMappedAsPointer
  | EccUncorrectable
  | UnsupportedLimit
  | ContextAlreadyInUse
  | PeerAccessUnsupported
  | InvalidPtx
  | InvalidGraphicsContext
  | NvlinkUncorrectable
  | InvalidSouce
  | FileNotFound
  | SharedObjectSymbolNotFound
  | SharedObjectInitFailed
  | OperatingSystemError
  | InvalidHandle
  | NotFound
  | NotReady
  | IllegalAddress
  | LaunchOutOfResources
  | LaunchTimeout
  | LaunchIncompatibleTexturing
  | PeerAccessAlreadyEnabled
  | PeerAccessNotEnabled
  | PrimaryContextActive
  | ContextIsDestroyed
  | AssertError
  | TooManyPeers
  | HostMemoryAlreadyRegistered
  | HostMemoryNotRegistered
  | HardwareStackError
  | IllegalInstruction
  | MisalignedAddress
  | InvalidAddressSpace
  | InvalidProgramCounter
  | LaunchFailed
  | NotPermitted
  | NotSupported
  | SystemNotReady
  | SystemDriverMismatch
  | CompatNotSupportedOnDevice
  | StreamCaptureUnsupported
  | StreamCaptureInvalidated
  | StreamCaptureMerge
  | StreamCaptureUnmatched
  | StreamCaptureUnjoined
  | StreamCaptureIsolation
  | StreamCaptureImplicit
  | CapturedEvent
  | StreamCaptureWrongThread
  | Timeout
  | GraphExecUpdateFailure
  | UnknownError
  -- RustaCUDA errors
  | InvalidMemoryAllocation
  | __Nonexhaustive
  deriving DecidableEq, Fintype

/-- Numeric discriminant of each `CudaError` variant, as fixed by the
`#[repr(u32)]` assignments in src/error.rs (`__Nonexhaustive` has no explicit
assignment; Rust gives it the previous value plus one, 100101). -/
def CudaError.code : CudaError → Nat
  | .InvalidValue => 1
  | .OutOfMemory => 2
  | .NotInitialized => 3
  | .Deinitialized => 4
  | .ProfilerDisabled => 5
  | .ProfilerNotInitialized => 6
  | .ProfilerAlreadyStarted => 7
  | .ProfilerAlreadyStopped => 8
  | .NoDevice => 100
  | .InvalidDevice => 101
  | .InvalidImage => 200
  | .InvalidContext => 201
  | .ContextAlreadyCurrent => 202
  | .MapFailed => 205
  | .UnmapFailed => 206
  | .ArrayIsMapped => 207
  | .AlreadyMapped => 208
  | .NoBinaryForGpu => 209
  | .AlreadyAcquired => 210
  | .NotMapped => 211
  | .NotMappedAsArray => 212
  | .NotMappedAsPointer => 213
  | .EccUncorrectable => 214
  | .UnsupportedLimit => 215
  | .ContextAlreadyInUse => 216
  | .PeerAccessUnsupported => 217
  | .InvalidPtx => 218
  | .InvalidGraphicsContext => 219
  | .NvlinkUncorrectable => 220
  | .InvalidSouce => 300
  | .FileNotFound => 301
  | .SharedObjectSymbolNotFound => 302
  | .SharedObjectInitFailed => 303
  | .OperatingSystemError => 304
  | .InvalidHandle => 400
  | .NotFound => 500
  | .NotReady => 600
  | .IllegalAddress => 700
  | .LaunchOutOfResources => 701
  | .LaunchTimeout => 702
  | .LaunchIncompatibleTexturing => 703
  | .PeerAccessAlreadyEnabled => 704
  | .PeerAccessNotEnabled => 705
  | .PrimaryContextActive => 708
  | .ContextIsDestroyed => 709
  | .AssertError => 710
  | .TooManyPeers => 711
  | .HostMemoryAlreadyRegistered => 712
  | .HostMemoryNotRegistered => 713
  | .HardwareStackError => 714
  | .IllegalInstruction => 715
  | .MisalignedAddress => 716
  | .InvalidAddressSpace => 717
  | .InvalidProgramCounter => 718
  | .LaunchFailed => 719
  | .NotPermitted => 800
  | .NotSupported => 801
  | .SystemNotReady => 802
  | .SystemDriverMismatch => 803
  | .CompatNotSupportedOnDevice => 804
  | .StreamCaptureUnsupported => 900
  | .StreamCaptureInvalidated => 901
  | .StreamCaptureMerge => 902
  | .StreamCaptureUnmatched => 903
  | .StreamCaptureUnjoined => 904
  | .StreamCaptureIsolation => 905
  | .StreamCaptureImplicit => 906
  | .CapturedEvent => 907
  | .StreamCaptureWrongThread => 908
  | .Timeout => 909
  | .GraphExecUpdateFailure => 910
  | .UnknownError => 999
  | .InvalidMemoryAllocation => 100100
  | .__Nonexhaustive => 100101

/-- Result type for most CUDA functions (`CudaResult<T>` in src/error.rs). -/
abbrev CudaResult (T : Type) : Type := Except CudaError T

/-- Special result type for drop functions which includes the un-dropped value
with the error (`DropResult<T> = Result<(), (CudaError, T)>` in src/error.rs). -/
abbrev DropResult (T : Type) : Type := Except (CudaError × T) Unit

/-- Embedding of `impl ToResult for cudaError_t`: the `match self` in
src/error.rs becomes a chain of equality tests against the driver constants'
documented numeric values, one per arm, in source order; the Rust wildcard arm
is the final `else`. -/
def to_result (s : Nat) : CudaResult Unit :=
  if s = 0 then Except.ok ()                                           -- CUDA_SUCCESS
  else if s = 1 then Except.error CudaError.InvalidValue               -- CUDA_ERROR_INVALID_VALUE
  else if s = 2 then Except.error CudaError.OutOfMemory                -- CUDA_ERROR_OUT_OF_MEMORY
  else if s = 3 then Except.error CudaError.NotInitialized             -- CUDA_ERROR_NOT_INITIALIZED
  else if s = 4 then Except.error CudaError.Deinitialized              -- CUDA_ERROR_DEINITIALIZED
  else if s = 5 then Except.error CudaError.ProfilerDisabled           -- CUDA_ERROR_PROFILER_DISABLED
  else if s = 6 then Except.error CudaError.ProfilerNotInitialized     -- CUDA_ERROR_PROFILER_NOT_INITIALIZED
  else if s = 7 then Except.error CudaError.ProfilerAlreadyStarted     -- CUDA_ERROR_PROFILER_ALREADY_STARTED
  else if s = 8 then Except.error CudaError.ProfilerAlreadyStopped     -- CUDA_ERROR_PROFILER_ALREADY_STOPPED
  else if s = 100 then Except.error CudaError.NoDevice                 -- CUDA_ERROR_NO_DEVICE
  else if s = 101 then Except.error CudaError.InvalidDevice            -- CUDA_ERROR_INVALID_DEVICE
  else if s = 200 then Except.error CudaError.InvalidImage             -- CUDA_ERROR_INVALID_IMAGE
  else if s = 201 then Except.error CudaError.InvalidContext           -- CUDA_ERROR_INVALID_CONTEXT
  else if s = 202 then Except.error CudaError.ContextAlreadyCurrent    -- CUDA_ERROR_CONTEXT_ALREADY_CURRENT
  else if s = 205 then Except.error CudaError.MapFailed                -- CUDA_ERROR_MAP_FAILED
  else if s = 206 then Except.error CudaError.UnmapFailed              -- CUDA_ERROR_UNMAP_FAILED
  else if s = 207 then Except.error CudaError.ArrayIsMapped            -- CUDA_ERROR_ARRAY_IS_MAPPED
  else if s = 208 then Except.error CudaError.AlreadyMapped            -- CUDA_ERROR_ALREADY_MAPPED
  else if s = 209 then Except.error CudaError.NoBinaryForGpu           -- CUDA_ERROR_NO_BINARY_FOR_GPU
  else if s = 210 then Except.error CudaError.AlreadyAcquired          -- CUDA_ERROR_ALREADY_ACQUIRED
  else if s = 211 then Except.error CudaError.NotMapped                -- CUDA_ERROR_NOT_MAPPED
  else if s = 212 then Except.error CudaError.NotMappedAsArray         -- CUDA_ERROR_NOT_MAPPED_AS_ARRAY
  else if s = 213 then Except.error CudaError.NotMappedAsPointer       -- CUDA_ERROR_NOT_MAPPED_AS_POINTER
  else if s = 214 then Except.error CudaError.EccUncorrectable         -- CUDA_ERROR_ECC_UNCORRECTABLE
  else if s = 215 then Except.error CudaError.UnsupportedLimit         -- CUDA_ERROR_UNSUPPORTED_LIMIT
  else if s = 216 then Except.error CudaError.ContextAlreadyInUse      -- CUDA_ERROR_CONTEXT_ALREADY_IN_USE
  else if s = 217 then Except.error CudaError.PeerAccessUnsupported    -- CUDA_ERROR_PEER_ACCESS_UNSUPPORTED
  else if s = 218 then Except.error CudaError.InvalidPtx               -- CUDA_ERROR_INVALID_PTX
  else if s = 219 then Except.error CudaError.InvalidGraphicsContext   -- CUDA_ERROR_INVALID_GRAPHICS_CONTEXT
  else if s = 220 then Except.error CudaError.NvlinkUncorrectable      -- CUDA_ERROR_NVLINK_UNCORRECTABLE
  else if s = 300 then Except.error CudaError.InvalidSouce             -- CUDA_ERROR_INVALID_SOURCE
  else if s = 301 then Except.error CudaError.FileNotFound             -- CUDA_ERROR_FILE_NOT_FOUND
  else if s = 302 then Except.error CudaError.SharedObjectSymbolNotFound -- CUDA_ERROR_SHARED_OBJECT_SYMBOL_NOT_FOUND
  else if s = 303 then Except.error CudaError.SharedObjectInitFailed   -- CUDA_ERROR_SHARED_OBJECT_INIT_FAILED
  else if s = 304 then Except.error CudaError.OperatingSystemError     -- CUDA_ERROR_OPERATING_SYSTEM
  else if s = 400 then Except.error CudaError.InvalidHandle            -- CUDA_ERROR_INVALID_HANDLE
  else if s = 500 then Except.error CudaError.NotFound                 -- CUDA_ERROR_NOT_FOUND
  else if s = 600 then Except.error CudaError.NotReady                 -- CUDA_ERROR_NOT_READY
  else if s = 700 then Except.error CudaError.IllegalAddress           -- CUDA_ERROR_ILLEGAL_ADDRESS
  else if s = 701 then Except.error CudaError.LaunchOutOfResources     -- CUDA_ERROR_LAUNCH_OUT_OF_RESOURCES
  else if s = 702 then Except.error CudaError.LaunchTimeout            -- CUDA_ERROR_LAUNCH_TIMEOUT
  else if s = 703 then Except.error CudaError.LaunchIncompatibleTexturing -- CUDA_ERROR_LAUNCH_INCOMPATIBLE_TEXTURING
  else if s = 704 then Except.error CudaError.PeerAccessAlreadyEnabled -- CUDA_ERROR_PEER_ACCESS_ALREADY_ENABLED
  else if s = 705 then Except.error CudaError.PeerAccessNotEnabled     -- CUDA_ERROR_PEER_ACCESS_NOT_ENABLED
  else if s = 708 then Except.error CudaError.PrimaryContextActive     -- CUDA_ERROR_PRIMARY_CONTEXT_ACTIVE
  else if s = 709 then Except.error CudaError.ContextIsDestroyed       -- CUDA_ERROR_CONTEXT_IS_DESTROYED
  else if s = 710 then Except.error CudaError.AssertError              -- CUDA_ERROR_ASSERT
  else if s = 711 then Except.error CudaError.TooManyPeers             -- CUDA_ERROR_TOO_MANY_PEERS
  else if s = 712 then Except.error CudaError.HostMemoryAlreadyRegistered -- CUDA_ERROR_HOST_MEMORY_ALREADY_REGISTERED
  else if s = 713 then Except.error CudaError.HostMemoryNotRegistered  -- CUDA_ERROR_HOST_MEMORY_NOT_REGISTERED
  else if s = 714 then Except.error CudaError.HardwareStackError       -- CUDA_ERROR_HARDWARE_STACK_ERROR
  else if s = 715 then Except.error CudaError.IllegalInstruction       -- CUDA_ERROR_ILLEGAL_INSTRUCTION
  else if s = 716 then Except.error CudaError.MisalignedAddress        -- CUDA_ERROR_MISALIGNED_ADDRESS
  else if s = 717 then Except.error CudaError.InvalidAddressSpace      -- CUDA_ERROR_INVALID_ADDRESS_SPACE
  else if s = 718 then Except.error CudaError.InvalidProgramCounter    -- CUDA_ERROR_INVALID_PC
  else if s = 719 then Except.error CudaError.LaunchFailed             -- CUDA_ERROR_LAUNCH_FAILED
  else if s = 800 then Except.error CudaError.NotPermitted             -- CUDA_ERROR_NOT_PERMITTED
  else if s = 801 then Except.error CudaError.NotSupported             -- CUDA_ERROR_NOT_SUPPORTED
  else Except.error CudaError.UnknownError

example : to_result 0 = Except.ok () := rfl
example : to_result 400 = Except.error CudaError.InvalidHandle := rfl
example : to_result 802 = Except.error CudaError.UnknownError := rfl
example : to_result 999 = Except.error CudaError.UnknownError := rfl
example : to_result 12345 = Except.error CudaError.UnknownError := rfl
example : CudaError.SystemNotReady.code = 802 := rfl

/-- A variant is driver-origin when it mirrors a CUDA driver status code, i.e.
it is listed under the `// CUDA errors` comment in src/error.rs: every variant
except the binding's `InvalidMemoryAllocation` and the hidden
`__Nonexhaustive` marker. -/
def CudaError.isDriverOrigin : CudaError → Bool
  | .InvalidMemoryAllocation => false
  | .__Nonexhaustive => false
  | _ => true

/-- A variant is binding-origin when it is minted by RustaCUDA itself, i.e.
listed under the `// RustaCUDA errors` comment in src/error.rs:
`InvalidMemoryAllocation` only (`__Nonexhaustive` is a hidden marker, not an
error kind). -/
def CudaError.isBindingOrigin : CudaError → Bool
  | .InvalidMemoryAllocation => true
  | _ => false

/-- The documented driver status codes: the discriminants of the driver-origin
`CudaError` variants. -/
def documentedDriverCodes : List Nat :=
  [1, 2, 3, 4, 5, 6, 7, 8, 100, 101,
   200, 201, 202, 205, 206, 207, 208, 209, 210, 211, 212, 213, 214, 215, 216,
   217, 218, 219, 220,
   300, 301, 302, 303, 304, 400, 500, 600,
   700, 701, 702, 703, 704, 705, 708, 709, 710, 711, 712, 713, 714, 715, 716,
   717, 718, 719,
   800, 801, 802, 803, 804,
   900, 901, 902, 903, 904, 905, 906, 907, 908, 909, 910, 999]

/-- Sanity: `documentedDriverCodes` is exactly the image of the driver-origin
variants under `CudaError.code`. -/
lemma documentedDriverCodes_eq_driver_image :
    ∀ c, c ∈ documentedDriverCodes ↔
      ∃ e : CudaError, e.isDriverOrigin = true ∧ e.code = c := by
  intro c
  constructor
  · intro hc
    fin_cases hc <;> decide
  · rintro ⟨e, he, rfl⟩
    revert e
    decide

/-- Debug-formatting of a `CStr` (`write!(f, "{:?}", cstr)` in src/error.rs):
the bytes are surrounded with double quotes. Escaping of special characters
inside the quotes is not modelled; no claim depends on it. -/
def cstrDebug (s : String) : String := "\"" ++ s ++ "\""

/-- Embedding of `impl fmt::Display for CudaError` (src/error.rs lines
104-124). The foreign function `cuGetErrorString` takes a status code and an
out pointer; it is modelled as `g : Nat → Nat × String`, returning the pair
(returned status, string the driver wrote through the pointer). The Rust code
routes the returned status through `to_result` and converts its error to
`fmt::Error` (the `Except.error ()` case here); on success it debug-formats
the `CStr` the pointer refers to. `fmt::Result` with the written text becomes
`Except Unit String`. -/
def fmtCudaError (g : Nat → Nat × String) (e : CudaError) : Except Unit String :=
  match e with
  | CudaError.InvalidMemoryAllocation => Except.ok "Invalid memory allocation"
  | CudaError.__Nonexhaustive => Except.ok "__Nonexhaustive"
  | other =>
    if other.code ≤ 999 then
      match to_result (g other.code).1 with
      | Except.error _ => Except.error ()
      | Except.ok _ => Except.ok (cstrDebug (g other.code).2)
    else Except.ok "Unknown error"

/-- Modelled from the spec: release operations live outside src/error.rs (the
drop functions of the handle-owning types). Per the spec, a release operation
calls the driver's release entry point on the handle and, when the returned
status is a failure, hands the un-released resource back to the caller paired
with the converted kind. `dropWith` abstracts such an operation over the
status the driver returned and the resource being released. -/
def dropWith {T : Type} (status : Nat) (resource : T) : DropResult T :=
  match to_result status with
  | Except.ok () => Except.ok ()
  | Except.error e => Except.error (e, resource)

example : fmtCudaError (fun _ => (0, "out of memory")) CudaError.OutOfMemory
    = Except.ok "\"out of memory\"" := rfl
example : fmtCudaError (fun _ => (3, "")) CudaError.OutOfMemory
    = Except.error () := rfl
example : fmtCudaError (fun _ => (3, "")) CudaError.InvalidMemoryAllocation
    = Except.ok "Invalid memory allocation" := rfl
example : dropWith 400 (37 : Nat)
    = Except.error (CudaError.InvalidHandle, 37) := rfl

instance {ε α : Type} [DecidableEq ε] [DecidableEq α] :
    DecidableEq (Except ε α) := fun a b =>
  match a, b with
  | Except.error e, Except.error f =>
    if h : e = f then isTrue (by rw [h])
    else isFalse (fun hc => h (Except.error.inj hc))
  | Except.error _, Except.ok _ => isFalse (fun hc => Except.noConfusion hc)
  | Except.ok _, Except.error _ => isFalse (fun hc => Except.noConfusion hc)
  | Except.ok x, Except.ok y =>
    if h : x = y then isTrue (by rw [h])
    else isFalse (fun hc => h (Except.ok.inj hc))

/-- Every constant tested by an arm of `to_result` is at most 801, so any
status at or above 802 falls through every arm to the wildcard. -/
lemma to_result_big (s : Nat) (h : 802 ≤ s) :
    to_result s = Except.error CudaError.UnknownError := by
  unfold to_result
  iterate 58 rw [if_neg (by omega)]

/-- Exhaustive evaluation of `to_result` over the range its arms test:
success exactly on 0, collapse to `UnknownError` outside the documented
codes, and never a binding-origin kind. -/
lemma to_result_small (t : Nat) (ht : t < 802) :
    (to_result t = Except.ok () ↔ t = 0) ∧
    (t ∉ documentedDriverCodes →
      t = 0 ∨ to_result t = Except.error CudaError.UnknownError) ∧
    (match to_result t with
      | Except.error e => !e.isBindingOrigin
      | Except.ok _ => true) = true :=
  (by decide : ∀ x : Fin 802,
    (to_result x.val = Except.ok () ↔ x.val = 0) ∧
    (x.val ∉ documentedDriverCodes →
      x.val = 0 ∨ to_result x.val = Except.error CudaError.UnknownError) ∧
    (match to_result x.val with
      | Except.error e => !e.isBindingOrigin
      | Except.ok _ => true) = true) ⟨t, ht⟩

/-- Success characterization of `to_result`. -/
lemma to_result_ok_iff (s : Nat) : to_result s = Except.ok () ↔ s = 0 := by
  by_cases hs : s < 802
  · exact (to_result_small s hs).1
  · constructor
    · intro h
      rw [to_result_big s (by omega)] at h
      exact Except.noConfusion h
    · intro h
      exact absurd h (by omega)

/-- Any nonzero status takes one of the error arms of `to_result`. -/
lemma to_result_error_of_ne_zero (s : Nat) (h : s ≠ 0) :
    ∃ er : CudaError, to_result s = Except.error er := by
  cases hr : to_result s with
  | error er => exact ⟨er, rfl⟩
  | ok u =>
    cases u
    exact absurd ((to_result_ok_iff s).mp hr) h

/-- A nonzero status outside the documented driver codes falls through every
arm of the `match` in `to_result` to the wildcard, which yields
`UnknownError`. -/
lemma to_result_undocumented (s : Nat) (h0 : s ≠ 0)
    (hd : s ∉ documentedDriverCodes) :
    to_result s = Except.error CudaError.UnknownError := by
  by_cases hs : s < 802
  · rcases (to_result_small s hs).2.1 hd with h | h
    · exact absurd h h0
    · exact h
  · exact to_result_big s (by omega)

/-- No input makes `to_result` produce a binding-origin kind. -/
lemma to_result_never_binding (t : Nat) (e : CudaError)
    (h : to_result t = Except.error e) : e.isBindingOrigin = false := by
  by_cases hs : t < 802
  · have hm := (to_result_small t hs).2.2
    rw [h] at hm
    simpa using hm
  · have hb := to_result_big t (by omega)
    rw [hb] at h
    injection h with h2
    subst h2
    rfl

/-- The `Display` match sends every driver-origin variant to the guarded
`other if (other as u32) <= 999` arm, which calls `cuGetErrorString` on the
variant's code and routes the returned status through `to_result`. -/
lemma fmt_driver_arm (g : Nat → Nat × String) (e : CudaError)
    (hd : e.isDriverOrigin = true) :
    fmtCudaError g e =
      match to_result (g e.code).1 with
      | Except.error _ => Except.error ()
      | Except.ok _ => Except.ok (cstrDebug (g e.code).2) := by
  cases e <;> first | rfl | exact absurd hd (by decide)

/-- C1 (code_bug): status 802 is a documented driver status code
(`CUDA_ERROR_SYSTEM_NOT_READY`, mirrored by the variant `SystemNotReady` with
discriminant 802), yet `to_result 802` falls through the wildcard arm and
returns `UnknownError`, whose numeric identity 999 differs from 802 — the
`match` in `ToResult::to_result` was never extended with the arms for the
variants `SystemNotReady` through `GraphExecUpdateFailure` (codes 802-910)
that the enum defines. -/
theorem to_result_system_not_ready_bug :
    (802 ∈ documentedDriverCodes ∧ CudaError.SystemNotReady.code = 802) ∧
    to_result 802 = Except.error CudaError.UnknownError ∧
    CudaError.UnknownError.code ≠ 802 :=
  ⟨⟨by decide, rfl⟩, rfl, by decide⟩

/-- C2: `to_result` returns success exactly on the driver's success constant
`CUDA_SUCCESS = 0`; every other status produces an error kind. -/
theorem to_result_success_iff_zero (s : Nat) :
    to_result s = Except.ok () ↔ s = 0 := by
  constructor
  · intro h
    by_contra h0
    obtain ⟨er, he⟩ := to_result_error_of_ne_zero s h0
    rw [he] at h
    exact Except.noConfusion h
  · rintro rfl
    rfl

/-- C3: `to_result` is total — for every representable input status it
returns either success or some `ErrorKind`; as a total Lean function it can
neither panic nor loop. -/
theorem to_result_total (s : Nat) :
    to_result s = Except.ok () ∨
    ∃ e : CudaError, to_result s = Except.error e := by
  cases h : to_result s with
  | error e => exact Or.inr ⟨e, rfl⟩
  | ok u => cases u; exact Or.inl rfl

/-- C4: every binding-origin kind has a numeric value at or above 100000 and
shares its numeric value with no driver-origin kind. -/
theorem binding_driver_codes_disjoint (e e' : CudaError)
    (hb : e.isBindingOrigin = true) (hd : e'.isDriverOrigin = true) :
    100000 ≤ e.code ∧ e.code ≠ e'.code := by
  revert e e'
  decide

/-- Witness for C4 at `InvalidMemoryAllocation` (binding-origin, code 100100)
against `InvalidValue` (driver-origin, code 1). -/
theorem binding_driver_codes_disjoint_witness :
    CudaError.InvalidMemoryAllocation.isBindingOrigin = true ∧
    CudaError.InvalidValue.isDriverOrigin = true ∧
    (100000 ≤ CudaError.InvalidMemoryAllocation.code ∧
      CudaError.InvalidMemoryAllocation.code ≠ CudaError.InvalidValue.code) :=
  ⟨rfl, rfl, binding_driver_codes_disjoint _ _ rfl rfl⟩

/-- C5: every nonzero status outside the documented driver codes maps to
`UnknownError`, and no input whatsoever makes `to_result` return a
binding-origin kind. -/
theorem to_result_unknown_collapse (s : Nat) (h0 : s ≠ 0)
    (hd : s ∉ documentedDriverCodes) :
    to_result s = Except.error CudaError.UnknownError ∧
    ∀ (t : Nat) (e : CudaError), to_result t = Except.error e →
      e.isBindingOrigin = false := by
  refine ⟨to_result_undocumented s h0 hd, ?_⟩
  intro t e h
  exact to_result_never_binding t e h

/-- Witness for C5 at the undocumented status 12345. -/
theorem to_result_unknown_collapse_witness :
    to_result 12345 = Except.error CudaError.UnknownError ∧
    ∀ (t : Nat) (e : CudaError), to_result t = Except.error e →
      e.isBindingOrigin = false :=
  to_result_unknown_collapse 12345 (by decide) (by decide)

/-- C6: rendering the binding-origin invalid-memory-allocation kind yields
exactly the fixed string "Invalid memory allocation", for every behaviour of
the driver's message-lookup entry point (so no driver call can influence it),
and always succeeds. -/
theorem fmt_invalid_memory_allocation_fixed (g : Nat → Nat × String) :
    fmtCudaError g CudaError.InvalidMemoryAllocation
      = Except.ok "Invalid memory allocation" := rfl

/-- C7: for every driver-origin kind, rendering calls the driver's
message-lookup entry point on the numeric status carried by the kind; when
the lookup returns the success status its string is copied (debug-formatted)
into the output, and when it returns a failure status rendering returns the
rendering-failure signal instead of crashing. -/
theorem fmt_driver_origin_delegates (g : Nat → Nat × String) (e : CudaError)
    (hd : e.isDriverOrigin = true) :
    ((g e.code).1 = 0 →
      fmtCudaError g e = Except.ok (cstrDebug (g e.code).2)) ∧
    ((g e.code).1 ≠ 0 → fmtCudaError g e = Except.error ()) := by
  constructor
  · intro h1
    rw [fmt_driver_arm g e hd, h1]
    rfl
  · intro h1
    obtain ⟨er, he⟩ := to_result_error_of_ne_zero _ h1
    rw [fmt_driver_arm g e hd, he]

/-- Witness for C7 at `OutOfMemory` with a mocked driver lookup that
succeeds with the message "out of memory". -/
theorem fmt_driver_origin_delegates_witness :
    fmtCudaError (fun _ => (0, "out of memory")) CudaError.OutOfMemory
      = Except.ok (cstrDebug "out of memory") :=
  (fmt_driver_origin_delegates (fun _ => (0, "out of memory"))
    CudaError.OutOfMemory rfl).1 rfl

/-- C8: rendering any `ErrorKind` under any driver behaviour either succeeds
with a non-empty string or signals rendering failure; as a total Lean
function it cannot panic. -/
theorem fmt_total_nonempty (g : Nat → Nat × String) (e : CudaError) :
    (∃ s : String, fmtCudaError g e = Except.ok s ∧ s.length ≠ 0) ∨
    fmtCudaError g e = Except.error () := by
  by_cases hd : e.isDriverOrigin = true
  · rw [fmt_driver_arm g e hd]
    cases hre : to_result (g e.code).1 with
    | error er =>
      right
      rfl
    | ok u =>
      left
      refine ⟨cstrDebug (g e.code).2, rfl, ?_⟩
      have h1 : ("\"" : String).length = 1 := rfl
      simp only [cstrDebug, String.length_append, h1]
      omega
  · cases e <;>
      first
        | exact absurd rfl hd
        | exact Or.inl ⟨_, rfl, by decide⟩

/-- C9: `DropResult<T>` has exactly the two shapes `Ok(())` and
`Err((kind, resource))`, and a release operation whose driver call returns
status 400 hands back the invalid-handle kind paired with the very resource
that was passed in. -/
theorem drop_result_shape (T : Type) (x : T) :
    (∀ r : DropResult T, r = Except.ok () ∨
      ∃ (e : CudaError) (t : T), r = Except.error (e, t)) ∧
    dropWith 400 x = Except.error (CudaError.InvalidHandle, x) := by
  constructor
  · intro r
    rcases r with ⟨e, t⟩ | u
    · exact Or.inr ⟨e, t, rfl⟩
    · cases u
      exact Or.inl rfl
  · rfl

/-- C10: the unknown kind's numeric identity is 999, which is itself a
documented driver status code (`CUDA_ERROR_UNKNOWN`); `to_result` sends the
driver's own status 999 to `UnknownError` through the wildcard arm, and any
undocumented nonzero status to the very same kind, so the two are
indistinguishable to callers. -/
theorem unknown_error_code_999_collision (s : Nat) (h0 : s ≠ 0)
    (hd : s ∉ documentedDriverCodes) :
    CudaError.UnknownError.code = 999 ∧
    999 ∈ documentedDriverCodes ∧
    to_result 999 = Except.error CudaError.UnknownError ∧
    to_result s = to_result 999 := by
  refine ⟨rfl, by decide, rfl, ?_⟩
  rw [to_result_undocumented s h0 hd]
  rfl

/-- Witness for C10 at the undocumented status 12346. -/
theorem unknown_error_code_999_collision_witness :
    CudaError.UnknownError.code = 999 ∧
    999 ∈ documentedDriverCodes ∧
    to_result 999 = Except.error CudaError.UnknownError ∧
    to_result 12346 = to_result 999 :=
  unknown_error_code_999_collision 12346 (by decide) (by decide)
